import Mathlib

/-!
Verification of the vaidhya chat client: a shallow embedding of
`src/services/api.js` (the Session Client) and
`src/components/Chat/Chat.jsx` (the Conversation View), with theorems
about the session-identity, transport and transcript behaviour.

Modelling conventions:
* `fetch` outcomes are abstracted as `HttpOutcome`: either a network
  failure (the promise rejects) or a response with a numeric status and
  an optional parsed JSON body (`none` models a body `response.json()`
  cannot parse).
* Thrown JS errors become `Except ApiError`.
* `localStorage` is a single `Option String` cell (only the key
  `chat_session_id` is ever used).
* `Math.random`/`Date.now()` are passed in as explicit parameters.
* Clock instants (`Date.now()`) are `Nat` milliseconds; the formatted
  `toLocaleTimeString` timestamp is modelled as the instant itself.
-/

namespace Vaidhya

/-- A quick-reply button `{text, value}` from the backend reply. -/
structure Button where
  text : String
  value : String
deriving DecidableEq, Repr

/-- A transcript message as built in Chat.jsx (id, text, sender,
timestamp, type, buttons).  `sender` and `type` are strings in the
source, so they are strings here. -/
structure Message where
  id : Nat
  text : String
  sender : String
  timestamp : Nat
  type : String
  buttons : List Button
deriving DecidableEq, Repr

/-- The `response` object inside a chat reply body; `type` and
`buttons` may be absent. -/
structure InnerResponse where
  text : String
  type : Option String
  buttons : Option (List Button)
deriving DecidableEq, Repr

/-- A parsed JSON body of a `/api/chat` (or `/api/reset`) reply:
`status` and `response` may each be absent. -/
structure ChatResponseBody where
  status : Option String
  response : Option InnerResponse
deriving DecidableEq, Repr

/-- Outcome of one `fetch`: rejection, or a response with a status code
and (`some`) parsed JSON body / (`none`) unparsable body. -/
inductive HttpOutcome (β : Type) where
  | networkFailure
  | response (status : Nat) (body : Option β)
deriving DecidableEq, Repr

/-- The errors `makeRequest` can throw: the `HTTP error! status: ...`
Error on a non-ok status, a rejected fetch, or a JSON parse failure. -/
inductive ApiError where
  | httpError (status : Nat)
  | fetchFailure
  | parseFailure
deriving DecidableEq, Repr

/-- `response.ok` of the Fetch API: status in 200..299. -/
def responseOk (status : Nat) : Bool :=
  decide (200 ≤ status ∧ status ≤ 299)

/-- `ApiService.makeRequest`: throws on `!response.ok`, then parses the
JSON body (rethrowing parse failures), otherwise returns the data. -/
def makeRequest {β : Type} (outcome : HttpOutcome β) : Except ApiError β :=
  match outcome with
  | .networkFailure => .error .fetchFailure
  | .response status body =>
    if responseOk status then
      match body with
      | some b => .ok b
      | none => .error .parseFailure
    else
      .error (.httpError status)

/-- The id built by `'session_' + Math.random().toString(36).substring(7) + '_' + Date.now()`. -/
def genSessionId (rand : String) (now : Nat) : String :=
  "session_" ++ rand ++ "_" ++ toString now

/-- `ApiService.getOrCreateSessionId` (the spec calls it
`ensureSessionId`): read `chat_session_id` from storage; if absent,
generate a fresh id and persist it.  Returns the id and the updated
storage cell. -/
def getOrCreateSessionId (storage : Option String) (rand : String) (now : Nat) :
    String × Option String :=
  match storage with
  | some s => (s, some s)
  | none =>
    let s := genSessionId rand now
    (s, some s)

/-- The Session Client state: the in-memory `this.sessionId` and the
persisted `localStorage` cell. -/
structure ApiState where
  sessionId : String
  storage : Option String
deriving DecidableEq, Repr

/-- The `ApiService` constructor: `this.sessionId = this.getOrCreateSessionId()`. -/
def mkApiService (storage : Option String) (rand : String) (now : Nat) : ApiState :=
  let p := getOrCreateSessionId storage rand now
  { sessionId := p.1, storage := p.2 }

/-- The request body of `POST /api/chat`. -/
structure ChatRequest where
  message : String
  session_id : String
deriving DecidableEq, Repr

/-- The request body of `POST /api/reset`. -/
structure ResetRequest where
  session_id : String
deriving DecidableEq, Repr

/-- `ApiService.sendMessage`: POSTs `{message, session_id}` and returns
`makeRequest`'s result; the client state is not touched. -/
def sendMessage (st : ApiState) (message : String)
    (outcome : HttpOutcome ChatResponseBody) :
    ChatRequest × Except ApiError ChatResponseBody :=
  ({ message := message, session_id := st.sessionId }, makeRequest outcome)

/-- `ApiService.resetSession`: POSTs `{session_id}`; if the request
throws, the exception propagates before the reassignment, so the state
is unchanged; on success `this.sessionId = this.getOrCreateSessionId()`
is executed (note: the storage key is never removed first). -/
def resetSession (st : ApiState) (outcome : HttpOutcome ChatResponseBody)
    (rand : String) (now : Nat) :
    ResetRequest × Except ApiError ChatResponseBody × ApiState :=
  let req : ResetRequest := { session_id := st.sessionId }
  match makeRequest outcome with
  | .error e => (req, .error e, st)
  | .ok b =>
    let p := getOrCreateSessionId st.storage rand now
    (req, .ok b, { sessionId := p.1, storage := p.2 })

/-- `ApiService.healthCheck`: `makeRequest('/health')`.  The body
contents are not consumed, so the body type is `Unit`. -/
def healthCheck (outcome : HttpOutcome Unit) : Except ApiError Unit :=
  makeRequest outcome

/-- `ApiService.getCurrentSessionId`. -/
def getCurrentSessionId (st : ApiState) : String :=
  st.sessionId

/-! ### Conversation View (Chat.jsx) -/

/-- The Chat component state: `messages`, `inputMessage`, `isLoading`,
`isConnected`. -/
structure ChatState where
  messages : List Message
  inputMessage : String
  isLoading : Bool
  isConnected : Bool
deriving DecidableEq, Repr

/-- The initial `useState` values. -/
def initialChatState : ChatState :=
  { messages := [], inputMessage := "", isLoading := false, isConnected := false }

/-- The welcome text shown by `initializeChat` and `handleReset`. -/
def welcomeText : String :=
  "👋 Hi, I am Doctor\x27s Assistant for OrthoVaidhya Clinic. What is your name?"

/-- The system text shown when the startup health check fails. -/
def connectErrorText : String :=
  "❌ Unable to connect to the medical assistant. Please check your connection and try again."

/-- The fixed apology text appended when a send fails. -/
def sendErrorText : String :=
  "❌ Sorry, I\x27m having trouble processing your message. Please try again."

/-- The welcome bot message, created at clock instant `t`. -/
def welcomeMessage (t : Nat) : Message :=
  { id := t, text := welcomeText, sender := "bot", timestamp := t,
    type := "message", buttons := [] }

/-- The startup connection-error system message, created at instant `t`. -/
def connectErrorMessage (t : Nat) : Message :=
  { id := t, text := connectErrorText, sender := "system", timestamp := t,
    type := "error", buttons := [] }

/-- The send-failure system message: note `id: Date.now() + 1` at reply
instant `t`. -/
def sendErrorMessage (t : Nat) : Message :=
  { id := t + 1, text := sendErrorText, sender := "system", timestamp := t,
    type := "error", buttons := [] }

/-- The optimistic user message appended by `handleSendMessage`. -/
def userMessage (text : String) (t : Nat) : Message :=
  { id := t, text := text, sender := "user", timestamp := t,
    type := "message", buttons := [] }

/-- JS `v || d` on an optional string field: absent or empty falls back
to the default. -/
def jsOrString (v : Option String) (d : String) : String :=
  match v with
  | some s => if s = "" then d else s
  | none => d

/-- The bot message built from a reply `response` object at reply
instant `t`: `id: Date.now() + 1`, `type: response.response.type || 'message'`,
`buttons: response.response.buttons || []` (an empty array is truthy in
JS, so only an absent field falls back). -/
def botMessage (r : InnerResponse) (t : Nat) : Message :=
  { id := t + 1, text := r.text, sender := "bot", timestamp := t,
    type := jsOrString r.type "message", buttons := r.buttons.getD [] }

/-- JS `String.prototype.trim()`: strip leading and trailing
whitespace.  Modelled by dropping whitespace characters from both ends
of the character list (structurally recursive, unlike `String.trim`,
so that concrete inputs evaluate). -/
def jsTrim (s : String) : String :=
  String.mk (((s.data.dropWhile Char.isWhitespace).reverse.dropWhile
    Char.isWhitespace).reverse)

/-- `initializeChat`: on a successful health check, connect and seed
the welcome message; on failure, disconnect and seed the error
message. -/
def initializeChat (st : ChatState) (t : Nat) (outcome : HttpOutcome Unit) : ChatState :=
  match makeRequest outcome with
  | .ok _ => { st with isConnected := true, messages := [welcomeMessage t] }
  | .error _ => { st with isConnected := false, messages := [connectErrorMessage t] }

/-- `const textToSend = messageText || inputMessage.trim()`:
`messageText` defaults to `null` (modelled `none`); an empty-string
button value is falsy and also falls back to the trimmed input. -/
def textToSend (messageText : Option String) (input : String) : String :=
  match messageText with
  | some s => if s = "" then jsTrim input else s
  | none => jsTrim input

/-- `handleSendMessage`: reject if the text is falsy or already
loading; otherwise append the user message, clear the input, set
loading, call `sendMessage` (with fetch outcome `outcome`), append a
bot message when `response.status === 'success' && response.response`,
otherwise (including every thrown error) append the apology system
message, and finally clear loading.  `tUser` is the `Date.now()`
instant at the user-message append, `tReply` the instant when the reply
or error is handled. -/
def handleSendMessage (st : ChatState) (messageText : Option String)
    (tUser tReply : Nat) (outcome : HttpOutcome ChatResponseBody) : ChatState :=
  let text := textToSend messageText st.inputMessage
  if text = "" ∨ st.isLoading then st
  else
    let st1 : ChatState :=
      { st with messages := st.messages ++ [userMessage text tUser],
                inputMessage := "", isLoading := true }
    let st2 : ChatState :=
      match makeRequest outcome with
      | .ok body =>
        match body.status, body.response with
        | some s, some r =>
          if s = "success" then
            { st1 with messages := st1.messages ++ [botMessage r tReply] }
          else
            { st1 with messages := st1.messages ++ [sendErrorMessage tReply] }
        | _, _ => { st1 with messages := st1.messages ++ [sendErrorMessage tReply] }
      | .error _ => { st1 with messages := st1.messages ++ [sendErrorMessage tReply] }
    { st2 with isLoading := false }

/-- `handleButtonClick(button.value)` simply calls
`handleSendMessage(buttonValue)`. -/
def handleButtonClick (st : ChatState) (buttonValue : String)
    (tUser tReply : Nat) (outcome : HttpOutcome ChatResponseBody) : ChatState :=
  handleSendMessage st (some buttonValue) tUser tReply outcome

/-- `handleReset`: set loading, await `resetSession`; on success
replace the transcript with the welcome message; on error only log;
finally clear loading.  Returns the new view state and Session Client
state. -/
def handleReset (st : ChatState) (api : ApiState) (t : Nat)
    (outcome : HttpOutcome ChatResponseBody) (rand : String) (now : Nat) :
    ChatState × ApiState :=
  let st1 : ChatState := { st with isLoading := true }
  let r := resetSession api outcome rand now
  match r.2.1 with
  | .ok _ => ({ st1 with messages := [welcomeMessage t], isLoading := false }, r.2.2)
  | .error _ => ({ st1 with isLoading := false }, r.2.2)

/-- The `disabled` attribute of the text input:
`isLoading || !isConnected`. -/
def inputDisabled (st : ChatState) : Bool :=
  st.isLoading || !st.isConnected

/-- The `disabled` attribute of the send button:
`isLoading || !inputMessage.trim() || !isConnected`. -/
def sendButtonDisabled (st : ChatState) : Bool :=
  st.isLoading || jsTrim st.inputMessage == "" || !st.isConnected

/-- The `disabled` attribute of a quick-reply button: `isLoading`. -/
def quickReplyDisabled (st : ChatState) : Bool :=
  st.isLoading

/-! ### Send traces -/

/-- One send interaction: the text typed into the input, the clock
instants of the user-message append and of the reply handling, and the
fetch outcome of the `/api/chat` call. -/
structure SendEvent where
  input : String
  tUser : Nat
  tReply : Nat
  outcome : HttpOutcome ChatResponseBody
deriving DecidableEq, Repr

/-- Run a sequence of typed sends: each event types its text into the
input box and invokes `handleSendMessage()` with no argument. -/
def runSends (st : ChatState) (evs : List SendEvent) : ChatState :=
  evs.foldl
    (fun s e =>
      handleSendMessage { s with inputMessage := e.input } none e.tUser e.tReply e.outcome)
    st

/-- A send event whose fetch outcome is a 2xx response with a parsed
body carrying `status: "success"` and a `response` object. -/
def SendEvent.good (e : SendEvent) : Bool :=
  match e.outcome with
  | .response s (some body) =>
    responseOk s && body.status == some "success" && body.response.isSome
  | _ => false

/-- The two messages one accepted send with resolved text `text` appends
to the transcript (the user message, then the bot message or the apology
message depending on the outcome), mirroring the branch structure of
`handleSendMessage`. -/
def sendAppendText (text : String) (tUser tReply : Nat)
    (o : HttpOutcome ChatResponseBody) : List Message :=
  userMessage text tUser ::
    (match makeRequest o with
     | .ok body =>
       match body.status, body.response with
       | some s, some r =>
         if s = "success" then [botMessage r tReply] else [sendErrorMessage tReply]
       | _, _ => [sendErrorMessage tReply]
     | .error _ => [sendErrorMessage tReply])

/-- The messages one accepted typed send appends to the transcript. -/
def sendAppend (e : SendEvent) : List Message :=
  sendAppendText (jsTrim e.input) e.tUser e.tReply e.outcome

/-! ### Basic lemmas about sends -/

lemma handleSendMessage_run (st : ChatState) (mt : Option String) (t1 t2 : Nat)
    (o : HttpOutcome ChatResponseBody)
    (h : textToSend mt st.inputMessage ≠ "") (hl : st.isLoading = false) :
    handleSendMessage st mt t1 t2 o =
      { st with
          messages := st.messages ++ sendAppendText (textToSend mt st.inputMessage) t1 t2 o,
          inputMessage := "", isLoading := false } := by
  simp only [handleSendMessage, sendAppendText]
  rw [if_neg (by simp [h, hl])]
  cases hmr : makeRequest o with
  | error err => simp [hmr]
  | ok body =>
    obtain ⟨bs, br⟩ := body
    cases bs with
    | none => cases br <;> simp [hmr]
    | some s =>
      cases br with
      | none => simp [hmr]
      | some r =>
        by_cases hs : s = "success" <;> simp [hmr, hs]

lemma handleSendMessage_accepted (st : ChatState) (e : SendEvent)
    (h1 : jsTrim e.input ≠ "") (h2 : st.isLoading = false) :
    handleSendMessage { st with inputMessage := e.input } none e.tUser e.tReply e.outcome =
      { st with messages := st.messages ++ sendAppend e,
                inputMessage := "", isLoading := false } := by
  have := handleSendMessage_run { st with inputMessage := e.input } none
    e.tUser e.tReply e.outcome (by simpa [textToSend] using h1) h2
  simpa [textToSend, sendAppend] using this

lemma handleSendMessage_rejected_empty (st : ChatState) (e : SendEvent)
    (h1 : jsTrim e.input = "") :
    handleSendMessage { st with inputMessage := e.input } none e.tUser e.tReply e.outcome =
      { st with inputMessage := e.input } := by
  simp [handleSendMessage, textToSend, h1]

lemma sendAppendText_length (text : String) (t1 t2 : Nat)
    (o : HttpOutcome ChatResponseBody) :
    (sendAppendText text t1 t2 o).length = 2 := by
  simp only [sendAppendText]
  cases hmr : makeRequest o with
  | error err => simp
  | ok body =>
    obtain ⟨bs, br⟩ := body
    cases bs <;> cases br <;> simp
    split <;> simp

lemma sendAppend_length (e : SendEvent) : (sendAppend e).length = 2 :=
  sendAppendText_length (jsTrim e.input) e.tUser e.tReply e.outcome

lemma sendAppendText_map_id (text : String) (t1 t2 : Nat)
    (o : HttpOutcome ChatResponseBody) :
    (sendAppendText text t1 t2 o).map Message.id = [t1, t2 + 1] := by
  simp only [sendAppendText]
  cases hmr : makeRequest o with
  | error err => simp [userMessage, sendErrorMessage]
  | ok body =>
    obtain ⟨bs, br⟩ := body
    cases bs <;> cases br <;>
      simp [userMessage, sendErrorMessage, botMessage]
    split <;> simp [userMessage, sendErrorMessage, botMessage]

lemma sendAppend_map_id (e : SendEvent) :
    (sendAppend e).map Message.id = [e.tUser, e.tReply + 1] :=
  sendAppendText_map_id (jsTrim e.input) e.tUser e.tReply e.outcome

lemma sendAppend_map_sender_of_good (e : SendEvent) (hg : e.good = true) :
    (sendAppend e).map Message.sender = ["user", "bot"] := by
  simp only [SendEvent.good] at hg
  cases ho : e.outcome with
  | networkFailure => rw [ho] at hg; exact absurd hg (by simp)
  | response s body =>
    cases body with
    | none => rw [ho] at hg; exact absurd hg (by simp)
    | some b =>
      rw [ho] at hg
      simp only [Bool.and_eq_true, beq_iff_eq, Option.isSome_iff_exists] at hg
      obtain ⟨⟨hok, hstat⟩, r, hr⟩ := hg
      simp [sendAppend, sendAppendText, ho, makeRequest, hok, hstat, hr,
        userMessage, botMessage]

lemma runSends_spec (evs : List SendEvent) (st : ChatState)
    (hacc : ∀ e ∈ evs, jsTrim e.input ≠ "") (h : st.isLoading = false) :
    (runSends st evs).messages = st.messages ++ evs.flatMap sendAppend ∧
    (runSends st evs).isLoading = false ∧
    (runSends st evs).isConnected = st.isConnected := by
  induction evs generalizing st with
  | nil => simp [runSends, h]
  | cons e evs ih =>
    have he : jsTrim e.input ≠ "" := hacc e (by simp)
    have hstep := handleSendMessage_accepted st e he h
    have hrest : ∀ e2 ∈ evs, jsTrim e2.input ≠ "" := fun e2 h2 => hacc e2 (by simp [h2])
    have := ih { st with messages := st.messages ++ sendAppend e,
                         inputMessage := "", isLoading := false } hrest rfl
    simp only [runSends, List.foldl_cons] at *
    rw [hstep]
    simpa [List.append_assoc] using this

lemma flatMap_sendAppend_length (evs : List SendEvent) :
    (evs.flatMap sendAppend).length = 2 * evs.length := by
  induction evs with
  | nil => simp
  | cons e evs ih => simp [ih, sendAppend_length, Nat.mul_succ, Nat.add_comm]

lemma flatMap_sendAppend_map_id (evs : List SendEvent) :
    (evs.flatMap sendAppend).map Message.id =
      evs.flatMap (fun e => [e.tUser, e.tReply + 1]) := by
  induction evs with
  | nil => simp
  | cons e evs ih => simp [ih, sendAppend_map_id]

lemma flatMap_sendAppend_map_sender (evs : List SendEvent)
    (hgood : ∀ e ∈ evs, e.good = true) :
    (evs.flatMap sendAppend).map Message.sender =
      evs.flatMap (fun _ => ["user", "bot"]) := by
  induction evs with
  | nil => simp
  | cons e evs ih =>
    have he := hgood e (by simp)
    have hrest : ∀ e2 ∈ evs, e2.good = true := fun e2 h2 => hgood e2 (by simp [h2])
    simp [ih hrest, sendAppend_map_sender_of_good e he]

/-! ### Concrete fixtures used by witnesses and counterexamples -/

/-- A well-formed backend `response` object. -/
def goodInner : InnerResponse :=
  { text := "Hi!", type := some "message", buttons := some [] }

/-- A well-formed success reply body. -/
def goodBody : ChatResponseBody :=
  { status := some "success", response := some goodInner }

/-- A 200 response carrying `goodBody`. -/
def goodOut : HttpOutcome ChatResponseBody :=
  .response 200 (some goodBody)

/-- A success body lacking the structured `response` field. -/
def malformedBody : ChatResponseBody :=
  { status := some "success", response := none }

/-- A Session Client state holding a persisted session id. -/
def exampleApi : ApiState :=
  { sessionId := "session_abc_1", storage := some "session_abc_1" }

/-- An idle connected view showing only the welcome message. -/
def idleState : ChatState :=
  { messages := [welcomeMessage 1], inputMessage := "", isLoading := false,
    isConnected := true }

/-- An idle connected view with a three-message transcript. -/
def exampleChatState : ChatState :=
  { messages := [welcomeMessage 1, userMessage "hi" 2, sendErrorMessage 3],
    inputMessage := "", isLoading := false, isConnected := true }

/-- An idle connected view with text typed into the input box. -/
def typedState : ChatState :=
  { messages := [welcomeMessage 1], inputMessage := "hi", isLoading := false,
    isConnected := true }

/-! ### Claim theorems -/

/-- C8: `ensureSessionId` (`getOrCreateSessionId`) is idempotent within
one persisted-storage lifetime: with no intervening reset or external
clearing, a second call returns the identical string (and leaves the
persisted cell unchanged), whatever random token and clock the second
call would have used. -/
theorem ensureSessionId_idempotent (storage : Option String) (r1 : String)
    (t1 : Nat) (r2 : String) (t2 : Nat) :
    (getOrCreateSessionId (getOrCreateSessionId storage r1 t1).2 r2 t2).1 =
      (getOrCreateSessionId storage r1 t1).1 ∧
    (getOrCreateSessionId (getOrCreateSessionId storage r1 t1).2 r2 t2).2 =
      (getOrCreateSessionId storage r1 t1).2 := by
  cases storage <;> simp [getOrCreateSessionId]

/-- C2 (code bug, evaluated at the failing input): `resetSession` with a
persisted session id `"session_abc_1"` and a successful remote call
leaves the Session Client state — in particular the session id returned
by a subsequent `getCurrentSessionId`/`ensureSessionId` — completely
unchanged, because `getOrCreateSessionId` finds the old id still stored
under `chat_session_id`; no fresh id is generated, contradicting the
claim and the source comment `// Generate new session ID after reset`. -/
theorem resetSession_keeps_old_id :
    (resetSession exampleApi goodOut "freshtoken" 999).2.2 = exampleApi ∧
    getCurrentSessionId (resetSession exampleApi goodOut "freshtoken" 999).2.2 =
      getCurrentSessionId exampleApi ∧
    (getOrCreateSessionId ((resetSession exampleApi goodOut "freshtoken" 999).2.2).storage
        "anothertoken" 1234).1 =
      (getOrCreateSessionId exampleApi.storage "sometoken" 0).1 := by
  refine ⟨rfl, rfl, rfl⟩

/-- C3 (counterexample): on a 200 reply whose body has
`status: "success"` but no `response` field, `sendMessage` does not fail
at all — it returns the malformed body as a success value, so the claim
that `sendMessage` fails with a `ProtocolError` is false (the client
layer has no such classification; the check lives in the view). -/
theorem sendMessage_malformed_success_cex :
    (sendMessage exampleApi "hi" (HttpOutcome.response 200 (some malformedBody))).2 =
      Except.ok malformedBody := rfl

/-- C3 (amended): on a 2xx reply whose body has `status: "success"` but
no `response` field, `sendMessage` returns the malformed body as a
success value (raising no error), and the Conversation View's send
protocol itself detects the missing field and appends exactly one system
message of kind "error" after the user message — no bot message. -/
theorem malformed_success_body_behavior (st : ChatState) (api : ApiState)
    (msg : String) (t1 t2 s : Nat) (body : ChatResponseBody)
    (hok : responseOk s = true) (hstat : body.status = some "success")
    (hresp : body.response = none)
    (hidle : st.isLoading = false) (hinput : jsTrim st.inputMessage ≠ "") :
    (sendMessage api msg (.response s (some body))).2 = Except.ok body ∧
    handleSendMessage st none t1 t2 (.response s (some body)) =
      { st with
          messages := st.messages ++
            [userMessage (jsTrim st.inputMessage) t1, sendErrorMessage t2],
          inputMessage := "", isLoading := false } := by
  constructor
  · simp [sendMessage, makeRequest, hok]
  · have := handleSendMessage_run st none t1 t2 (.response s (some body))
      (by simpa [textToSend] using hinput) hidle
    rw [this]
    simp [sendAppendText, textToSend, makeRequest, hok, hstat, hresp]

/-- C3 witness: the amended behaviour at a concrete malformed reply. -/
theorem malformed_success_body_behavior_witness :
    responseOk 200 = true ∧ malformedBody.status = some "success" ∧
    malformedBody.response = none ∧ typedState.isLoading = false ∧
    jsTrim typedState.inputMessage ≠ "" ∧
    ((sendMessage exampleApi "hi" (.response 200 (some malformedBody))).2 =
        Except.ok malformedBody ∧
      handleSendMessage typedState none 5 6 (.response 200 (some malformedBody)) =
        { typedState with
            messages := typedState.messages ++
              [userMessage (jsTrim typedState.inputMessage) 5, sendErrorMessage 6],
            inputMessage := "", isLoading := false }) :=
  ⟨by decide, rfl, rfl, rfl, by decide,
    malformed_success_body_behavior typedState exampleApi "hi" 5 6 200
      malformedBody (by decide) rfl rfl rfl (by decide)⟩

/-- C6 (counterexample): a response with 2xx status whose body is not
parsable JSON makes `healthCheck` fail (the `response.json()` rejection
propagates), so "any response with a 2xx status is treated as healthy"
is false. -/
theorem healthCheck_2xx_unparsable_cex :
    healthCheck (HttpOutcome.response 200 none) =
      Except.error ApiError.parseFailure := rfl

/-- C6 (amended): any 2xx response whose body parses as JSON is treated
as healthy (the operation succeeds); a non-2xx status, a network
failure, or a 2xx response with an unparsable body makes it fail with a
transport-level error; and `responseOk` is exactly the 2xx test. -/
theorem healthCheck_classification (s : Nat) (b : Option Unit) :
    (responseOk s = true → b.isSome = true →
      healthCheck (.response s b) = Except.ok ()) ∧
    (responseOk s = false →
      healthCheck (.response s b) = Except.error (ApiError.httpError s)) ∧
    (responseOk s = true → b = none →
      healthCheck (.response s b) = Except.error ApiError.parseFailure) ∧
    healthCheck HttpOutcome.networkFailure = Except.error ApiError.fetchFailure ∧
    (responseOk s = true ↔ 200 ≤ s ∧ s ≤ 299) := by
  refine ⟨?_, ?_, ?_, rfl, by simp [responseOk]⟩
  · intro hok hb
    cases b with
    | none => simp at hb
    | some u => simp [healthCheck, makeRequest, hok]
  · intro hok
    simp [healthCheck, makeRequest, hok]
  · intro hok hb
    subst hb
    simp [healthCheck, makeRequest, hok]

/-- C6 witness: the amended classification at a healthy 200 response and
at a failing 503 response. -/
theorem healthCheck_classification_witness :
    (responseOk 200 = true ∧ (some ()).isSome = true ∧
      healthCheck (.response 200 (some ())) = Except.ok ()) ∧
    (responseOk 503 = false ∧
      healthCheck (.response 503 (some ())) =
        Except.error (ApiError.httpError 503)) :=
  ⟨⟨by decide, rfl, (healthCheck_classification 200 (some ())).1 (by decide) rfl⟩,
   ⟨by decide, (healthCheck_classification 503 (some ())).2.1 (by decide)⟩⟩

/-- C1 (counterexample): resetting from a three-message transcript when
the remote reset call fails (network failure) leaves the transcript at
three messages, not one — the transcript is only cleared inside the
`try`; the `catch` merely logs. -/
theorem reset_failure_keeps_transcript_cex :
    ((handleReset exampleChatState exampleApi 9 HttpOutcome.networkFailure
        "tok" 10).1).messages.length ≠ 1 := by
  decide

/-- C1 (amended): when the remote reset call succeeds, the transcript
afterwards is exactly one message (the welcome message) whatever it
held before; when the remote call fails, the transcript is left
unchanged; in both cases the busy flag ends cleared. -/
theorem handleReset_transcript (st : ChatState) (api : ApiState) (t : Nat)
    (o : HttpOutcome ChatResponseBody) (rand : String) (now : Nat) :
    (∀ b, makeRequest o = Except.ok b →
      ((handleReset st api t o rand now).1).messages = [welcomeMessage t]) ∧
    (∀ err, makeRequest o = Except.error err →
      ((handleReset st api t o rand now).1).messages = st.messages) ∧
    ((handleReset st api t o rand now).1).isLoading = false := by
  refine ⟨?_, ?_, ?_⟩
  · intro b hb
    simp [handleReset, resetSession, hb]
  · intro err he
    simp [handleReset, resetSession, he]
  · cases hmr : makeRequest o <;> simp [handleReset, resetSession, hmr]

/-- C1 witness: a successful reset from the three-message transcript. -/
theorem handleReset_transcript_witness :
    makeRequest goodOut = Except.ok goodBody ∧
    ((handleReset exampleChatState exampleApi 9 goodOut "tok" 10).1).messages =
      [welcomeMessage 9] ∧
    ((handleReset exampleChatState exampleApi 9 goodOut "tok" 10).1).isLoading = false :=
  ⟨rfl,
   (handleReset_transcript exampleChatState exampleApi 9 goodOut "tok" 10).1
     goodBody rfl,
   (handleReset_transcript exampleChatState exampleApi 9 goodOut "tok" 10).2.2⟩

/-- C5: `Connected-Busy` is never terminal.  Starting from an idle view,
every send — whatever the fetch outcome, including a network failure —
completes with the busy flag cleared and the connectivity flag
untouched, so the text input is re-enabled whenever the view is
connected; and every reset, whatever the outcome, completes with the
busy flag cleared and connectivity untouched. -/
theorem busy_state_never_terminal (st : ChatState) (mt : Option String)
    (t1 t2 : Nat) (o : HttpOutcome ChatResponseBody)
    (st2 : ChatState) (api : ApiState) (t : Nat)
    (o2 : HttpOutcome ChatResponseBody) (rand : String) (now : Nat)
    (hidle : st.isLoading = false) :
    (handleSendMessage st mt t1 t2 o).isLoading = false ∧
    (handleSendMessage st mt t1 t2 o).isConnected = st.isConnected ∧
    (st.isConnected = true →
      inputDisabled (handleSendMessage st mt t1 t2 o) = false) ∧
    ((handleReset st2 api t o2 rand now).1).isLoading = false ∧
    ((handleReset st2 api t o2 rand now).1).isConnected = st2.isConnected := by
  have hload : (handleSendMessage st mt t1 t2 o).isLoading = false := by
    by_cases hc : textToSend mt st.inputMessage = ""
    · simp [handleSendMessage, hc, hidle]
    · rw [handleSendMessage_run st mt t1 t2 o hc hidle]
  have hconn : (handleSendMessage st mt t1 t2 o).isConnected = st.isConnected := by
    by_cases hc : textToSend mt st.inputMessage = ""
    · simp [handleSendMessage, hc, hidle]
    · rw [handleSendMessage_run st mt t1 t2 o hc hidle]
  have hreset : ((handleReset st2 api t o2 rand now).1).isLoading = false ∧
      ((handleReset st2 api t o2 rand now).1).isConnected = st2.isConnected := by
    cases hmr : makeRequest o2 <;> simp [handleReset, resetSession, hmr]
  refine ⟨hload, hconn, ?_, hreset.1, hreset.2⟩
  intro hcon
  simp [inputDisabled, hload, hconn, hcon]

/-- C5 witness: a network-failure send from the idle connected view and
a network-failure reset both end idle with the controls enabled. -/
theorem busy_state_never_terminal_witness :
    idleState.isLoading = false ∧ idleState.isConnected = true ∧
    (handleSendMessage typedState none 5 6 HttpOutcome.networkFailure).isLoading = false ∧
    inputDisabled (handleSendMessage typedState none 5 6 HttpOutcome.networkFailure) = false ∧
    ((handleReset idleState exampleApi 9 HttpOutcome.networkFailure "tok" 10).1).isLoading = false :=
  ⟨rfl, rfl,
   (busy_state_never_terminal typedState none 5 6 HttpOutcome.networkFailure
     idleState exampleApi 9 HttpOutcome.networkFailure "tok" 10 rfl).1,
   (busy_state_never_terminal typedState none 5 6 HttpOutcome.networkFailure
     idleState exampleApi 9 HttpOutcome.networkFailure "tok" 10 rfl).2.2.1 rfl,
   (busy_state_never_terminal typedState none 5 6 HttpOutcome.networkFailure
     idleState exampleApi 9 HttpOutcome.networkFailure "tok" 10 rfl).2.2.2.1⟩

/-- The C10 invariant: the in-memory session id is exactly the value
persisted under the fixed storage key `chat_session_id`. -/
def sessionPersisted (st : ApiState) : Prop :=
  st.storage = some st.sessionId

/-- C10: the persisted-identity invariant holds after construction and
is kept by every Session Client operation, and every `sendMessage` and
`resetSession` request body carries exactly the currently persisted
session id. -/
theorem session_id_always_persisted :
    (∀ storage rand now, sessionPersisted (mkApiService storage rand now)) ∧
    (∀ st msg o, sessionPersisted st →
      st.storage = some ((sendMessage st msg o).1.session_id)) ∧
    (∀ st o rand now, sessionPersisted st →
      st.storage = some ((resetSession st o rand now).1.session_id)) ∧
    (∀ st o rand now, sessionPersisted st →
      sessionPersisted (resetSession st o rand now).2.2) := by
  refine ⟨?_, ?_, ?_, ?_⟩
  · intro storage rand now
    cases storage <;> simp [mkApiService, getOrCreateSessionId, sessionPersisted]
  · intro st msg o h
    simpa [sendMessage] using h
  · intro st o rand now h
    have h2 : st.storage = some st.sessionId := h
    cases hmr : makeRequest o <;> simpa [resetSession, hmr] using h2
  · intro st o rand now h
    have h2 : st.storage = some st.sessionId := h
    cases hmr : makeRequest o with
    | error err => simpa [resetSession, hmr, sessionPersisted] using h2
    | ok b =>
      simp [resetSession, hmr, sessionPersisted, getOrCreateSessionId, h2]

/-- C10 witness: the invariant at a fresh construction and across the
operations on `exampleApi`. -/
theorem session_id_always_persisted_witness :
    sessionPersisted (mkApiService none "abc" 5) ∧
    sessionPersisted exampleApi ∧
    exampleApi.storage = some ((sendMessage exampleApi "hi" goodOut).1.session_id) ∧
    exampleApi.storage = some ((resetSession exampleApi goodOut "tok" 9).1.session_id) ∧
    sessionPersisted (resetSession exampleApi goodOut "tok" 9).2.2 :=
  ⟨session_id_always_persisted.1 none "abc" 5, rfl,
   session_id_always_persisted.2.1 exampleApi "hi" goodOut rfl,
   session_id_always_persisted.2.2.1 exampleApi goodOut "tok" 9 rfl,
   session_id_always_persisted.2.2.2 exampleApi goodOut "tok" 9 rfl⟩

/-- C4: after a successful initialization, every sequence of N accepted
sends that all succeed yields a transcript of length 1 + 2N: the single
welcome message first, then one user message and one bot message per
send, appended in that order. -/
theorem transcript_length_after_sends (tInit : Nat) (oInit : HttpOutcome Unit)
    (hInit : makeRequest oInit = Except.ok ()) (evs : List SendEvent)
    (hacc : ∀ e ∈ evs, jsTrim e.input ≠ "") (hgood : ∀ e ∈ evs, e.good = true) :
    (runSends (initializeChat initialChatState tInit oInit) evs).messages.length =
      1 + 2 * evs.length ∧
    (runSends (initializeChat initialChatState tInit oInit) evs).messages.map
        Message.sender = "bot" :: evs.flatMap (fun _ => ["user", "bot"]) ∧
    (runSends (initializeChat initialChatState tInit oInit) evs).messages.head? =
      some (welcomeMessage tInit) := by
  have hst0m : (initializeChat initialChatState tInit oInit).messages =
      [welcomeMessage tInit] := by
    simp [initializeChat, hInit]
  have hst0l : (initializeChat initialChatState tInit oInit).isLoading = false := by
    simp [initializeChat, hInit, initialChatState]
  obtain ⟨hm, hl, hc⟩ :=
    runSends_spec evs (initializeChat initialChatState tInit oInit) hacc hst0l
  refine ⟨?_, ?_, ?_⟩
  · rw [hm, hst0m, List.length_append, flatMap_sendAppend_length]
    simp only [List.length_singleton]
  · rw [hm, hst0m]
    simp [flatMap_sendAppend_map_sender evs hgood, welcomeMessage]
  · rw [hm, hst0m]
    simp

/-- The single successful send used by the C4 witness. -/
def helloSend : SendEvent :=
  { input := "hello", tUser := 10, tReply := 11, outcome := goodOut }

/-- C4 witness: one successful send after a successful initialization
gives a three-message transcript welcome/user/bot. -/
theorem transcript_length_after_sends_witness :
    makeRequest (HttpOutcome.response 200 (some ())) = Except.ok () ∧
    (∀ e ∈ [helloSend], jsTrim e.input ≠ "") ∧
    (∀ e ∈ [helloSend], e.good = true) ∧
    (runSends (initializeChat initialChatState 1 (HttpOutcome.response 200 (some ())))
        [helloSend]).messages.length = 1 + 2 * 1 ∧
    (runSends (initializeChat initialChatState 1 (HttpOutcome.response 200 (some ())))
        [helloSend]).messages.map Message.sender = ["bot", "user", "bot"] :=
  ⟨rfl, by decide, by decide,
   (transcript_length_after_sends 1 (HttpOutcome.response 200 (some ())) rfl
     [helloSend] (by decide) (by decide)).1,
   (transcript_length_after_sends 1 (HttpOutcome.response 200 (some ())) rfl
     [helloSend] (by decide) (by decide)).2.1⟩

/-- C7 (counterexample): clicking a button whose value is `" hi "` from
the idle view is not the same as typing `" hi "` and sending: the
button path sends the value verbatim while the typed path trims it, so
the two resulting states differ. -/
theorem quick_reply_not_equiv_typing_cex :
    handleButtonClick idleState " hi " 10 11 goodOut ≠
      handleSendMessage { idleState with inputMessage := " hi " } none 10 11 goodOut := by
  decide

/-- C7 (amended): quick-reply activation invokes the send protocol with
the button's value passed directly: while busy it does nothing (and the
button is rendered disabled); when the view is idle and the value
non-empty, the value is sent verbatim — untrimmed — as the next user
message, and the activation coincides with typing the value and sending
exactly when the value equals its trimmed form. -/
theorem quick_reply_behavior (st : ChatState) (v : String) (t1 t2 : Nat)
    (o : HttpOutcome ChatResponseBody) :
    quickReplyDisabled st = st.isLoading ∧
    (st.isLoading = true → handleButtonClick st v t1 t2 o = st) ∧
    (st.isLoading = false → v ≠ "" →
      ((handleButtonClick st v t1 t2 o).messages.drop st.messages.length).head? =
        some (userMessage v t1) ∧
      (jsTrim v = v →
        handleButtonClick st v t1 t2 o =
          handleSendMessage { st with inputMessage := v } none t1 t2 o)) := by
  refine ⟨rfl, ?_, ?_⟩
  · intro hb
    simp [handleButtonClick, handleSendMessage, hb]
  · intro hl hv
    have htext : textToSend (some v) st.inputMessage = v := by
      simp [textToSend, hv]
    have hrun := handleSendMessage_run st (some v) t1 t2 o (by rw [htext]; exact hv) hl
    rw [htext] at hrun
    constructor
    · rw [handleButtonClick, hrun]
      simp [sendAppendText, List.drop_left]
    · intro htrim
      have htext2 : textToSend none
          ({ st with inputMessage := v } : ChatState).inputMessage = v := by
        simpa [textToSend] using htrim
      have hrun2 := handleSendMessage_run { st with inputMessage := v } none t1 t2 o
        (by rw [htext2]; exact hv) hl
      rw [htext2] at hrun2
      rw [handleButtonClick, hrun, hrun2]

/-- C7 witness: the amended behaviour at the button value `"yes"` from
the idle view. -/
theorem quick_reply_behavior_witness :
    idleState.isLoading = false ∧ ("yes" : String) ≠ "" ∧ jsTrim "yes" = "yes" ∧
    ((handleButtonClick idleState "yes" 10 11 goodOut).messages.drop
        idleState.messages.length).head? = some (userMessage "yes" 10) ∧
    handleButtonClick idleState "yes" 10 11 goodOut =
      handleSendMessage { idleState with inputMessage := "yes" } none 10 11 goodOut :=
  ⟨rfl, by decide, by decide,
   ((quick_reply_behavior idleState "yes" 10 11 goodOut).2.2 rfl (by decide)).1,
   ((quick_reply_behavior idleState "yes" 10 11 goodOut).2.2 rfl (by decide)).2
     (by decide)⟩

/-- Two successful sends both fired at clock instant 300. -/
def collidingSends : List SendEvent :=
  [{ input := "a", tUser := 300, tReply := 300, outcome := goodOut },
   { input := "b", tUser := 300, tReply := 300, outcome := goodOut }]

/-- C9 (counterexample): message ids are `Date.now()` values, so two
sends within the same millisecond (instant 300) produce colliding ids
(the transcript ids are 100, 300, 301, 300, 301) — uniqueness does not
hold "regardless of how quickly messages are created". -/
theorem message_ids_collide_cex :
    ¬ (((runSends (initializeChat initialChatState 100
          (HttpOutcome.response 200 (some ()))) collidingSends).messages.map
        Message.id).Nodup) := by
  decide

/-- The ids `handleSendMessage` assigns along a trace: the welcome
message carries the init instant, each send its user instant and its
reply instant plus one. -/
def traceIds (tInit : Nat) (evs : List SendEvent) : List Nat :=
  tInit :: evs.flatMap (fun e => [e.tUser, e.tReply + 1])

/-- C9 (amended): each message id is the `Date.now()` instant of its
creation (plus one for the bot/error message of a send), so transcript
ids are unique provided these assigned values are strictly increasing
along the trace — i.e. no two message-creating events fall on the same
millisecond — but not regardless of timing. -/
theorem message_ids_unique_when_separated (tInit : Nat) (oInit : HttpOutcome Unit)
    (hInit : makeRequest oInit = Except.ok ()) (evs : List SendEvent)
    (hacc : ∀ e ∈ evs, jsTrim e.input ≠ "")
    (hsep : List.Chain' (· < ·) (traceIds tInit evs)) :
    (runSends (initializeChat initialChatState tInit oInit) evs).messages.map
        Message.id = traceIds tInit evs ∧
    ((runSends (initializeChat initialChatState tInit oInit) evs).messages.map
        Message.id).Nodup := by
  have hst0m : (initializeChat initialChatState tInit oInit).messages =
      [welcomeMessage tInit] := by
    simp [initializeChat, hInit]
  have hst0l : (initializeChat initialChatState tInit oInit).isLoading = false := by
    simp [initializeChat, hInit, initialChatState]
  obtain ⟨hm, hl, hc⟩ :=
    runSends_spec evs (initializeChat initialChatState tInit oInit) hacc hst0l
  have hids : (runSends (initializeChat initialChatState tInit oInit) evs).messages.map
      Message.id = traceIds tInit evs := by
    rw [hm, hst0m]
    simp [traceIds, flatMap_sendAppend_map_id, welcomeMessage]
  refine ⟨hids, ?_⟩
  rw [hids]
  have hp : List.Pairwise (· < ·) (traceIds tInit evs) :=
    List.chain'_iff_pairwise.mp hsep
  exact hp.imp (fun h => Nat.ne_of_lt h)

/-- C9 witness: well-separated instants (init 100, sends at 200/210 and
300/310) give the distinct ids 100, 200, 211, 300, 311. -/
theorem message_ids_unique_when_separated_witness :
    makeRequest (HttpOutcome.response 200 (some ())) = Except.ok () ∧
    (∀ e ∈ [(⟨"a", 200, 210, goodOut⟩ : SendEvent), ⟨"b", 300, 310, goodOut⟩],
      jsTrim e.input ≠ "") ∧
    List.Chain' (· < ·)
      (traceIds 100 [(⟨"a", 200, 210, goodOut⟩ : SendEvent), ⟨"b", 300, 310, goodOut⟩]) ∧
    ((runSends (initializeChat initialChatState 100 (HttpOutcome.response 200 (some ())))
        [(⟨"a", 200, 210, goodOut⟩ : SendEvent), ⟨"b", 300, 310, goodOut⟩]).messages.map
      Message.id).Nodup :=
  ⟨rfl, by decide,
   List.Chain.cons (by decide) (List.Chain.cons (by decide)
     (List.Chain.cons (by decide) (List.Chain.cons (by decide) List.Chain.nil))),
   (message_ids_unique_when_separated 100 (HttpOutcome.response 200 (some ())) rfl
     [(⟨"a", 200, 210, goodOut⟩ : SendEvent), ⟨"b", 300, 310, goodOut⟩]
     (by decide)
     (List.Chain.cons (by decide) (List.Chain.cons (by decide)
       (List.Chain.cons (by decide) (List.Chain.cons (by decide) List.Chain.nil))))).2⟩

end Vaidhya
